import Mathlib

/-!
Shallow embedding of `src/defaults/skills/play-sound/scripts/play-sound.py`,
a cross-platform sound notification script, together with theorems about the
fallback-resolution behavior of its platform strategies.

The observable behavior of the script is a sequence of side effects (filesystem
existence probes, external command invocations via `subprocess.run`, calls
into the `winsound` API, and writes of the terminal bell character), and it
depends on the host environment: which files exist, which executables are
installed, and whether the `winsound` module is importable.  We model the
environment as a structure of decidable oracles, and each Python function as
a pure Lean function from the environment (and the sound-type string) to a
pair of the list of events it performs, in order, and the exception escaping
it, if any.
-/

namespace PlaySound

/-- Observable side effects of the script, in the order they occur.

  * `probe p` models `os.path.exists(p)`;
  * `run args` models a `subprocess.run(args, check=False, ...)` attempt
    (recorded whether or not the executable exists);
  * `winBeep f d` models `winsound.Beep(f, d)`;
  * `winMessageBeep` models `winsound.MessageBeep()`;
  * `bell` models the `print` call writing the bell character with empty
    end and `flush=True`: exactly one bell control character written to
    standard output, flushed, with no trailing newline. -/
inductive Event where
  | probe (path : String)
  | run (args : List String)
  | winBeep (freq dur : Nat)
  | winMessageBeep
  | bell
  deriving Repr, DecidableEq

/-- Exceptions the modelled code can raise.  All of them are subclasses of
the Python `Exception` class, so all are caught by `except Exception` in
`main`. -/
inductive Exc where
  | fileNotFound
  | importError
  | runtimeError
  deriving Repr, DecidableEq

/-- The host environment the script runs against.

  * `fileExists p` is the result of `os.path.exists(p)`;
  * `execAvailable c`: `subprocess.run([c, ...])` raises `FileNotFoundError`
    if and only if this is `false`;
  * `winsoundAvailable`: `import winsound` raises `ImportError` if and only
    if this is `false` (re-importing the same unavailable module fails
    again for the same reason);
  * `beepRaises`: whether `winsound.Beep` raises a runtime error;
  * `messageBeepRaises`: whether `winsound.MessageBeep` raises. -/
structure Env where
  fileExists : String → Bool
  execAvailable : String → Bool
  winsoundAvailable : Bool
  beepRaises : Bool
  messageBeepRaises : Bool

/-- Result of running a piece of the script: the events performed, in order,
and the exception escaping it, if any. -/
abbrev Res := List Event × Option Exc

/-- Model of `subprocess.run(args, check=False, stdout=DEVNULL,
stderr=DEVNULL)`: the attempt is recorded, and `FileNotFoundError` is raised
exactly when the executable (the head of `args`) is not installed.  Since
`check=False`, the exit status of the invoked process is never inspected. -/
def subprocessRun (env : Env) (args : List String) : Res :=
  ([Event.run args], if env.execAvailable (args.headD "") then none else some Exc.fileNotFound)

/-- Model of Python `dict.get(k, d)` over an association list. -/
def dictGet {α : Type} (m : List (String × α)) (k : String) (d : α) : α :=
  match m.find? (fun p => p.1 == k) with
  | some p => p.2
  | none => d

/-- The `sound_map` dictionary of `play_sound_macos`. -/
def macos_sound_map : List (String × String) :=
  [("success", "/System/Library/Sounds/Hero.aiff"),
   ("prompt", "/System/Library/Sounds/Blow.aiff")]

/-- Model of `play_sound_macos`: look up the asset for the sound type
(defaulting to the `prompt` entry), attempt `afplay` on it, and on
`FileNotFoundError` attempt the `osascript` beep instead.  A failure of the
`osascript` attempt itself is not caught here and escapes to the caller. -/
def play_sound_macos (env : Env) (sound_type : String) : Res :=
  let sound_file := dictGet macos_sound_map sound_type (dictGet macos_sound_map "prompt" "")
  let r1 := subprocessRun env ["afplay", sound_file]
  match r1.2 with
  | none => (r1.1, none)
  | some Exc.fileNotFound =>
      let r2 := subprocessRun env ["osascript", "-e", "beep 1"]
      (r1.1 ++ r2.1, r2.2)
  | some e => (r1.1, some e)

/-- The `sound_paths` list of `play_sound_linux`. -/
def linux_sound_paths : List String :=
  ["/usr/share/sounds/freedesktop/stereo/",
   "/usr/share/sounds/ubuntu/stereo/",
   "/usr/share/sounds/gnome/default/alerts/"]

/-- The `sound_map` dictionary of `play_sound_linux`. -/
def linux_sound_map : List (String × List String) :=
  [("success", ["complete.oga", "message.oga", "glass.oga"]),
   ("prompt", ["dialog-warning.oga", "message-new-instant.oga", "bell.oga"])]

/-- Model of `os.path.join(base, f)` for the paths occurring here (`f` is a
plain relative filename): a separator is inserted unless the base already
ends with one.  The trailing-separator test is phrased on the underlying
character list so that it evaluates by kernel reduction. -/
def joinPath (base f : String) : String :=
  if base.data.getLast? = some '/' then base ++ f else base ++ "/" ++ f

/-- The ordered `(base_path, sound_file)` pairs enumerated by the nested
`for` loops of `play_sound_linux`, outer loop over `linux_sound_paths`. -/
def linuxPairs (sounds : List String) : List (String × String) :=
  (linux_sound_paths.map (fun bp => sounds.map (fun sf => (bp, sf)))).flatten

/-- The candidate filename list `sounds` selected by `play_sound_linux` for
a given sound type (defaulting to the `prompt` entry). -/
def linuxSounds (sound_type : String) : List String :=
  dictGet linux_sound_map sound_type (dictGet linux_sound_map "prompt" [])

/-- The body of the nested `for` loops of `play_sound_linux`: probe each
candidate path in order; at the first existing one, attempt `paplay`,
falling back to `aplay -q` on `FileNotFoundError`, and return (`true`) if
either player executable was invokable; if both raise `FileNotFoundError`,
`pass` and continue with the remaining candidates.  Returns the events and
whether some `return` statement was reached. -/
def linuxLoop (env : Env) : List (String × String) → List Event × Bool
  | [] => ([], false)
  | (bp, sf) :: rest =>
    let full_path := joinPath bp sf
    if env.fileExists full_path then
      let r1 := subprocessRun env ["paplay", full_path]
      match r1.2 with
      | none => (Event.probe full_path :: r1.1, true)
      | some _ =>
        let r2 := subprocessRun env ["aplay", "-q", full_path]
        match r2.2 with
        | none => (Event.probe full_path :: (r1.1 ++ r2.1), true)
        | some _ =>
          let rec_ := linuxLoop env rest
          (Event.probe full_path :: (r1.1 ++ r2.1 ++ rec_.1), rec_.2)
    else
      let rec_ := linuxLoop env rest
      (Event.probe full_path :: rec_.1, rec_.2)

/-- Model of `play_sound_linux`: run the candidate loop; if no `return` was
reached, attempt `beep -f 800 -l 100`, and on `FileNotFoundError` write the
terminal bell as the last resort. -/
def play_sound_linux (env : Env) (sound_type : String) : Res :=
  let sounds := linuxSounds sound_type
  let loop := linuxLoop env (linuxPairs sounds)
  if loop.2 then (loop.1, none)
  else
    let r := subprocessRun env ["beep", "-f", "800", "-l", "100"]
    match r.2 with
    | none => (loop.1 ++ r.1, none)
    | some Exc.fileNotFound => (loop.1 ++ r.1 ++ [Event.bell], none)
    | some e => (loop.1 ++ r.1, some e)

/-- Model of `play_sound_windows`: `import winsound` and call `Beep` with
type-dependent parameters; a runtime error from `Beep` is not an
`ImportError` and escapes.  On `ImportError`, the fallback block re-imports
`winsound` (which fails again, since the module is still unavailable) and
would call `MessageBeep`; any exception there is caught by the bare
`except:` and the terminal bell is written. -/
def play_sound_windows (env : Env) (sound_type : String) : Res :=
  if env.winsoundAvailable then
    if sound_type == "success" then
      ([Event.winBeep 1000 100], if env.beepRaises then some Exc.runtimeError else none)
    else
      ([Event.winBeep 800 150], if env.beepRaises then some Exc.runtimeError else none)
  else
    if env.winsoundAvailable then
      if env.messageBeepRaises then ([Event.winMessageBeep, Event.bell], none)
      else ([Event.winMessageBeep], none)
    else
      ([Event.bell], none)

/-- Model of `main`: pick the sound type from `sys.argv` (defaulting to
`"prompt"`), dispatch on `platform.system()`, write the terminal bell for
any unrecognized system, and suppress every escaping exception with the
outermost `except Exception: pass`. -/
def main (env : Env) (system : String) (argv : List String) : Res :=
  let sound_type := if argv.length < 2 then "prompt" else argv.getD 1 ""
  let r :=
    if system == "Darwin" then play_sound_macos env sound_type
    else if system == "Linux" then play_sound_linux env sound_type
    else if system == "Windows" then play_sound_windows env sound_type
    else ([Event.bell], none)
  (r.1, none)

/-- Process exit status of the script: a Python script exits with status 0
when `main()` returns normally and nonzero when an exception escapes. -/
def scriptExitCode (env : Env) (system : String) (argv : List String) : Nat :=
  match (main env system argv).2 with
  | none => 0
  | some _ => 1

/-- A concrete bare environment: no files, no executables, no winsound. -/
def bareEnv : Env :=
  { fileExists := fun _ => false
    execAvailable := fun _ => false
    winsoundAvailable := false
    beepRaises := false
    messageBeepRaises := false }

/-- A concrete well-equipped environment: every executable installed,
winsound importable and working, still no sound files on disk. -/
def richEnv : Env :=
  { fileExists := fun _ => false
    execAvailable := fun _ => true
    winsoundAvailable := true
    beepRaises := false
    messageBeepRaises := false }

/-- A concrete environment in which exactly one sound file exists (the very
first Linux candidate for `success`) and no executable is installed. -/
def firstFileOnlyEnv : Env :=
  { bareEnv with
    fileExists := fun p => p == "/usr/share/sounds/freedesktop/stereo/complete.oga" }

/-- The probe event for a `(base_path, sound_file)` candidate pair. -/
def probeOf (c : String × String) : Event :=
  Event.probe (joinPath c.1 c.2)

/-- Whether an event is not a filesystem existence probe. -/
def nonProbe : Event → Bool
  | Event.probe _ => false
  | _ => true

/-- The events of the player attempt made on an existing candidate file:
`paplay` is attempted first, and `aplay -q` is attempted exactly when the
`paplay` executable is missing. -/
def playerAttempt (env : Env) (fp : String) : List Event :=
  if env.execAvailable "paplay" then [Event.run ["paplay", fp]]
  else [Event.run ["paplay", fp], Event.run ["aplay", "-q", fp]]

/-- When no candidate file exists, the Linux candidate loop degenerates to
the sequence of probes and reaches no `return`. -/
theorem linuxLoop_all_missing (env : Env) (cs : List (String × String))
    (h : ∀ c ∈ cs, env.fileExists (joinPath c.1 c.2) = false) :
    linuxLoop env cs = (cs.map probeOf, false) := by
  induction cs with
  | nil => rfl
  | cons c rest ih =>
    obtain ⟨bp, sf⟩ := c
    have hc : env.fileExists (joinPath bp sf) = false := h (bp, sf) (List.mem_cons_self _ _)
    have hrest : ∀ c ∈ rest, env.fileExists (joinPath c.1 c.2) = false :=
      fun c hm => h c (List.mem_cons_of_mem _ hm)
    simp [linuxLoop, hc, ih hrest, probeOf]

/-- When some player executable is invokable, the Linux candidate loop stops
at the first existing candidate: it probes the earlier (missing) candidates,
probes the hit, makes the player attempt on it, and returns. -/
theorem linuxLoop_first_hit (env : Env) (pre post : List (String × String))
    (bp sf : String)
    (hplayer : env.execAvailable "paplay" = true ∨ env.execAvailable "aplay" = true)
    (hpre : ∀ c ∈ pre, env.fileExists (joinPath c.1 c.2) = false)
    (hhit : env.fileExists (joinPath bp sf) = true) :
    linuxLoop env (pre ++ (bp, sf) :: post) =
      (pre.map probeOf ++ probeOf (bp, sf) :: playerAttempt env (joinPath bp sf), true) := by
  induction pre with
  | nil =>
    rcases hplayer with hp | ha
    · simp [linuxLoop, hhit, subprocessRun, hp, playerAttempt, probeOf]
    · by_cases hp : env.execAvailable "paplay" = true
      · simp [linuxLoop, hhit, subprocessRun, hp, playerAttempt, probeOf]
      · simp only [Bool.not_eq_true] at hp
        simp [linuxLoop, hhit, subprocessRun, hp, ha, playerAttempt, probeOf]
  | cons c rest ih =>
    obtain ⟨bp0, sf0⟩ := c
    have hc : env.fileExists (joinPath bp0 sf0) = false := hpre (bp0, sf0) (List.mem_cons_self _ _)
    have hrest : ∀ c ∈ rest, env.fileExists (joinPath c.1 c.2) = false :=
      fun c hm => hpre c (List.mem_cons_of_mem _ hm)
    simp [linuxLoop, hc, ih hrest, probeOf]

/-- CLAIM C1.  For every platform identifier (recognized or not), every
argument vector and every environment, the top-level dispatch suppresses all
escaping exceptions and the process exit status is 0. -/
theorem claim1_main_never_raises (env : Env) (system : String) (argv : List String) :
    (main env system argv).2 = none ∧ scriptExitCode env system argv = 0 :=
  ⟨rfl, rfl⟩

/-- CLAIM C7.  When the detected platform is none of Darwin, Linux, or
Windows, the dispatcher writes exactly one bell character and performs no
other action: the whole event trace is `[Event.bell]`. -/
theorem claim7_unknown_platform_bell (env : Env) (system : String) (argv : List String)
    (h1 : system ≠ "Darwin") (h2 : system ≠ "Linux") (h3 : system ≠ "Windows") :
    main env system argv = ([Event.bell], none) := by
  simp [main, h1, h2, h3]

/-- CLAIM C7 witness at the concrete platform string "Amiga". -/
theorem claim7_witness :
    main bareEnv "Amiga" ["play-sound.py", "success"] = ([Event.bell], none) :=
  claim7_unknown_platform_bell bareEnv "Amiga" ["play-sound.py", "success"]
    (by decide) (by decide) (by decide)

/-- CLAIM C3 (evaluation of the code at the failing configuration).  When
the winsound import fails, the fallback block re-imports winsound, which
fails again, so `MessageBeep` is never invoked: the whole trace is the bell
alone, and no `winMessageBeep` event ever occurs.  This contradicts the
claim that the generic system notification sound is requested before the
bell. -/
theorem claim3_no_messagebeep_on_import_failure (env : Env) (sound_type : String)
    (h : env.winsoundAvailable = false) :
    play_sound_windows env sound_type = ([Event.bell], none) ∧
      Event.winMessageBeep ∉ (play_sound_windows env sound_type).1 := by
  refine ⟨by simp [play_sound_windows, h], ?_⟩
  simp [play_sound_windows, h]

/-- CLAIM C3 witness: the bare environment has no winsound module. -/
theorem claim3_witness :
    play_sound_windows bareEnv "prompt" = ([Event.bell], none) ∧
      Event.winMessageBeep ∉ (play_sound_windows bareEnv "prompt").1 :=
  claim3_no_messagebeep_on_import_failure bareEnv "prompt" rfl

/-- CLAIM C5.  When the winsound module is importable, sound type
`success` requests a 1000 Hz tone for 100 ms and every other sound type
requests an 800 Hz tone for 150 ms, and nothing else is attempted. -/
theorem claim5_windows_tone_parameters (env : Env)
    (h : env.winsoundAvailable = true) :
    (play_sound_windows env "success").1 = [Event.winBeep 1000 100] ∧
      ∀ sound_type, sound_type ≠ "success" →
        (play_sound_windows env sound_type).1 = [Event.winBeep 800 150] := by
  constructor
  · simp [play_sound_windows, h]
  · intro st hst
    have hb : (st == "success") = false := by simp [hst]
    simp [play_sound_windows, h, hb]

/-- CLAIM C5 witness in the well-equipped environment, evaluated at the
sound types "success" and "prompt". -/
theorem claim5_witness :
    (play_sound_windows richEnv "success").1 = [Event.winBeep 1000 100] ∧
      (play_sound_windows richEnv "prompt").1 = [Event.winBeep 800 150] :=
  ⟨(claim5_windows_tone_parameters richEnv rfl).1,
   (claim5_windows_tone_parameters richEnv rfl).2 "prompt" (by decide)⟩

/-- CLAIM C9.  Only an ImportError triggers the Windows fallback chain: if
`winsound.Beep` raises at runtime, the exception escapes
`play_sound_windows` uncaught (neither `MessageBeep` nor the bell is ever
attempted) and is then swallowed by the top-level handler in `main`. -/
theorem claim9_beep_runtime_error_escapes (env : Env) (sound_type : String)
    (h1 : env.winsoundAvailable = true) (h2 : env.beepRaises = true) :
    (play_sound_windows env sound_type).2 = some Exc.runtimeError ∧
      Event.winMessageBeep ∉ (play_sound_windows env sound_type).1 ∧
      Event.bell ∉ (play_sound_windows env sound_type).1 ∧
      (main env "Windows" ["play-sound.py", sound_type]).2 = none := by
  refine ⟨?_, ?_, ?_, rfl⟩ <;>
    by_cases hs : (sound_type == "success") = true <;>
      simp [play_sound_windows, h1, h2, hs]

/-- CLAIM C9 witness: a working winsound import whose Beep raises. -/
theorem claim9_witness :
    (play_sound_windows { richEnv with beepRaises := true } "prompt").2 = some Exc.runtimeError ∧
      Event.winMessageBeep ∉ (play_sound_windows { richEnv with beepRaises := true } "prompt").1 ∧
      Event.bell ∉ (play_sound_windows { richEnv with beepRaises := true } "prompt").1 ∧
      (main { richEnv with beepRaises := true } "Windows" ["play-sound.py", "prompt"]).2 = none :=
  claim9_beep_runtime_error_escapes { richEnv with beepRaises := true } "prompt" rfl rfl

/-- For any sound type other than `success`, the macOS lookup (with the
`prompt` entry as the dictionary-get default) yields the Blow asset, exactly
as for `prompt`. -/
theorem macos_lookup_not_success (st : String) (h : st ≠ "success") :
    dictGet macos_sound_map st (dictGet macos_sound_map "prompt" "") =
      "/System/Library/Sounds/Blow.aiff" := by
  have h1 : (("success" : String) == st) = false := by simp [Ne.symm h]
  by_cases hp : st = "prompt"
  · subst hp; rfl
  · have h2 : (("prompt" : String) == st) = false := by simp [Ne.symm hp]
    simp [dictGet, macos_sound_map, List.find?, h1, h2]

/-- For any sound type other than `success`, the Linux candidate filename
list is the `prompt` list. -/
theorem linuxSounds_not_success (st : String) (h : st ≠ "success") :
    linuxSounds st = linuxSounds "prompt" := by
  have h1 : (("success" : String) == st) = false := by simp [Ne.symm h]
  by_cases hp : st = "prompt"
  · subst hp; rfl
  · have h2 : (("prompt" : String) == st) = false := by simp [Ne.symm hp]
    simp [linuxSounds, dictGet, linux_sound_map, List.find?, h1, h2]

/-- CLAIM C4.  On every platform strategy, any sound-type string other than
`success` produces exactly the same result (same attempted candidates, same
events, same escaping exception) as the sound type `prompt`. -/
theorem claim4_other_sound_types_behave_like_prompt (env : Env) (sound_type : String)
    (h : sound_type ≠ "success") :
    play_sound_macos env sound_type = play_sound_macos env "prompt" ∧
      play_sound_linux env sound_type = play_sound_linux env "prompt" ∧
      play_sound_windows env sound_type = play_sound_windows env "prompt" := by
  refine ⟨?_, ?_, ?_⟩
  · unfold play_sound_macos
    rw [macos_lookup_not_success sound_type h]
    rfl
  · unfold play_sound_linux
    rw [linuxSounds_not_success sound_type h]
  · have hb : (sound_type == "success") = false := by simp [h]
    simp [play_sound_windows, hb]

/-- CLAIM C4 witness at the concrete sound type "unknown-garbage". -/
theorem claim4_witness :
    play_sound_macos bareEnv "unknown-garbage" = play_sound_macos bareEnv "prompt" ∧
      play_sound_linux bareEnv "unknown-garbage" = play_sound_linux bareEnv "prompt" ∧
      play_sound_windows bareEnv "unknown-garbage" = play_sound_windows bareEnv "prompt" :=
  claim4_other_sound_types_behave_like_prompt bareEnv "unknown-garbage" (by decide)

/-- CLAIM C8.  On the macOS strategy with sound type `success`, the very
first event is the `afplay` attempt on the fixed Hero asset path, and the
`osascript` beep fallback occurs in the trace if and only if the `afplay`
executable is unavailable. -/
theorem claim8_macos_success_hero_first (env : Env) :
    (play_sound_macos env "success").1.head? =
      some (Event.run ["afplay", "/System/Library/Sounds/Hero.aiff"]) ∧
      (Event.run ["osascript", "-e", "beep 1"] ∈ (play_sound_macos env "success").1 ↔
        env.execAvailable "afplay" = false) := by
  by_cases h : env.execAvailable "afplay" = true
  · have e : play_sound_macos env "success" =
        ([Event.run ["afplay", "/System/Library/Sounds/Hero.aiff"]], none) := by
      simp [play_sound_macos, subprocessRun, dictGet, macos_sound_map, h]
    rw [e]
    refine ⟨rfl, ?_⟩
    simp [h]
  · simp only [Bool.not_eq_true] at h
    have e : (play_sound_macos env "success").1 =
        [Event.run ["afplay", "/System/Library/Sounds/Hero.aiff"],
         Event.run ["osascript", "-e", "beep 1"]] := by
      simp [play_sound_macos, subprocessRun, dictGet, macos_sound_map, h]
    rw [e]
    refine ⟨rfl, ?_⟩
    simp [h]

/-- Existence probes contribute nothing to the non-probe part of a trace. -/
theorem filter_nonProbe_map_probeOf (cs : List (String × String)) :
    (cs.map probeOf).filter nonProbe = [] := by
  induction cs with
  | nil => rfl
  | cons c rest ih => simp [probeOf, nonProbe, ih]

/-- When no candidate file exists, the Linux strategy trace is the probes of
all candidates followed by the beep attempt and, with the beep executable
missing, the terminal bell. -/
theorem play_sound_linux_all_missing (env : Env) (sound_type : String)
    (hfiles : ∀ c ∈ linuxPairs (linuxSounds sound_type),
      env.fileExists (joinPath c.1 c.2) = false) :
    play_sound_linux env sound_type =
      ((linuxPairs (linuxSounds sound_type)).map probeOf ++
        Event.run ["beep", "-f", "800", "-l", "100"] ::
          (if env.execAvailable "beep" then [] else [Event.bell]), none) := by
  have hloop := linuxLoop_all_missing env _ hfiles
  by_cases hbeep : env.execAvailable "beep" = true
  · simp [play_sound_linux, hloop, subprocessRun, hbeep]
  · simp only [Bool.not_eq_true] at hbeep
    simp [play_sound_linux, hloop, subprocessRun, hbeep]

/-- CLAIM C6.  On the Linux strategy, when none of the configured base
directories contains any candidate filename for the given sound type and
the console-beep executable is unavailable, the resolver attempts the beep
command and then writes exactly one bell character (the `Event.bell` event
models the `print` call writing the bell with empty end and
`flush=True`). -/
theorem claim6_linux_no_files_beep_then_bell (env : Env) (sound_type : String)
    (hfiles : ∀ c ∈ linuxPairs (linuxSounds sound_type),
      env.fileExists (joinPath c.1 c.2) = false)
    (hbeep : env.execAvailable "beep" = false) :
    play_sound_linux env sound_type =
      ((linuxPairs (linuxSounds sound_type)).map probeOf ++
        [Event.run ["beep", "-f", "800", "-l", "100"], Event.bell], none) ∧
      (play_sound_linux env sound_type).1.count Event.bell = 1 := by
  have e := play_sound_linux_all_missing env sound_type hfiles
  rw [hbeep] at e
  simp only [Bool.false_eq_true, if_false] at e
  refine ⟨e, ?_⟩
  rw [e]
  have hz : ((linuxPairs (linuxSounds sound_type)).map probeOf).count Event.bell = 0 := by
    refine List.count_eq_zero.mpr ?_
    intro hm
    rcases List.mem_map.mp hm with ⟨c, _, hc⟩
    simp [probeOf] at hc
  simp [List.count_append, hz]

/-- CLAIM C6 witness in the bare environment (no files, no executables),
with the defaulted sound type `prompt`. -/
theorem claim6_witness :
    play_sound_linux bareEnv "prompt" =
      ((linuxPairs (linuxSounds "prompt")).map probeOf ++
        [Event.run ["beep", "-f", "800", "-l", "100"], Event.bell], none) ∧
      (play_sound_linux bareEnv "prompt").1.count Event.bell = 1 :=
  claim6_linux_no_files_beep_then_bell bareEnv "prompt" (fun _ _ => rfl) rfl

/-- CLAIM C10.  On the Linux strategy, when no candidate sound file exists,
the beep fallback is always invoked with the fixed arguments 800 Hz and
100 ms, and after discarding the existence probes the traces for any two
sound types are identical: `success` and `prompt` are indistinguishable in
the beep and bell fallbacks. -/
theorem claim10_linux_fallback_independent_of_sound_type (env : Env) (st1 st2 : String)
    (h : ∀ p, env.fileExists p = false) :
    (play_sound_linux env st1).1.filter nonProbe =
      (play_sound_linux env st2).1.filter nonProbe ∧
      Event.run ["beep", "-f", "800", "-l", "100"] ∈ (play_sound_linux env st1).1 := by
  have e1 := play_sound_linux_all_missing env st1 (fun c _ => h _)
  have e2 := play_sound_linux_all_missing env st2 (fun c _ => h _)
  constructor
  · rw [e1, e2]
    simp [List.filter_append, filter_nonProbe_map_probeOf]
  · rw [e1]
    simp

/-- CLAIM C10 witness in the bare environment, comparing the sound types
"success" and "prompt". -/
theorem claim10_witness :
    (play_sound_linux bareEnv "success").1.filter nonProbe =
      (play_sound_linux bareEnv "prompt").1.filter nonProbe ∧
      Event.run ["beep", "-f", "800", "-l", "100"] ∈ (play_sound_linux bareEnv "success").1 :=
  claim10_linux_fallback_independent_of_sound_type bareEnv "success" "prompt" (fun _ => rfl)

/-- A concrete environment in which the first Linux `success` candidate
file exists and exactly the `paplay` executable is installed. -/
def paplayEnv : Env :=
  { firstFileOnlyEnv with execAvailable := fun c => c == "paplay" }

/-- A player attempt consists of command invocations only, never a probe. -/
theorem probe_not_mem_playerAttempt (env : Env) (fp p : String) :
    Event.probe p ∉ playerAttempt env fp := by
  cases hp : env.execAvailable "paplay" <;> simp [playerAttempt, hp]

/-- A player attempt never invokes the console-beep command. -/
theorem beep_not_mem_playerAttempt (env : Env) (fp : String) :
    Event.run ["beep", "-f", "800", "-l", "100"] ∉ playerAttempt env fp := by
  cases hp : env.execAvailable "paplay" <;> simp [playerAttempt, hp]

/-- CLAIM C2 counterexample.  In `paplayEnv` with the `paplay` executable
removed (`firstFileOnlyEnv`), the file of the first candidate pair exists and a
player attempt is made on it, yet — because neither player executable was
invokable — the strategy goes on to probe later candidate pairs and even
reaches the beep fallback, refuting that the function returns immediately
regardless of whether the player executable was invokable. -/
theorem claim2_counterexample :
    (linuxPairs (linuxSounds "success")).head? =
      some ("/usr/share/sounds/freedesktop/stereo/", "complete.oga") ∧
      firstFileOnlyEnv.fileExists
        (joinPath "/usr/share/sounds/freedesktop/stereo/" "complete.oga") = true ∧
      Event.run ["paplay", "/usr/share/sounds/freedesktop/stereo/complete.oga"] ∈
        (play_sound_linux firstFileOnlyEnv "success").1 ∧
      Event.probe "/usr/share/sounds/ubuntu/stereo/complete.oga" ∈
        (play_sound_linux firstFileOnlyEnv "success").1 ∧
      Event.run ["beep", "-f", "800", "-l", "100"] ∈
        (play_sound_linux firstFileOnlyEnv "success").1 := by
  have e : (play_sound_linux firstFileOnlyEnv "success").1 =
      [Event.probe "/usr/share/sounds/freedesktop/stereo/complete.oga",
       Event.run ["paplay", "/usr/share/sounds/freedesktop/stereo/complete.oga"],
       Event.run ["aplay", "-q", "/usr/share/sounds/freedesktop/stereo/complete.oga"],
       Event.probe "/usr/share/sounds/freedesktop/stereo/message.oga",
       Event.probe "/usr/share/sounds/freedesktop/stereo/glass.oga",
       Event.probe "/usr/share/sounds/ubuntu/stereo/complete.oga",
       Event.probe "/usr/share/sounds/ubuntu/stereo/message.oga",
       Event.probe "/usr/share/sounds/ubuntu/stereo/glass.oga",
       Event.probe "/usr/share/sounds/gnome/default/alerts/complete.oga",
       Event.probe "/usr/share/sounds/gnome/default/alerts/message.oga",
       Event.probe "/usr/share/sounds/gnome/default/alerts/glass.oga",
       Event.run ["beep", "-f", "800", "-l", "100"],
       Event.bell] := by decide
  rw [e]
  refine ⟨by decide, by decide, ?_, ?_, ?_⟩ <;> simp

/-- CLAIM C2 as amended.  On the Linux strategy, as soon as the first
existing candidate pair is found, a player attempt is made on that file and
— provided the PulseAudio or the ALSA player executable is invokable — the
function returns immediately: no later candidate pair is probed, the beep
fallback is never attempted, and player success (the exit status of the
invoked player) is never inspected.  Without an invokable player executable
the loop instead continues past the existing file. -/
theorem claim2_linux_returns_at_first_hit (env : Env) (sound_type : String)
    (pre post : List (String × String)) (bp sf : String)
    (hsplit : linuxPairs (linuxSounds sound_type) = pre ++ (bp, sf) :: post)
    (hpre : ∀ c ∈ pre, env.fileExists (joinPath c.1 c.2) = false)
    (hhit : env.fileExists (joinPath bp sf) = true)
    (hplayer : env.execAvailable "paplay" = true ∨ env.execAvailable "aplay" = true)
    (hnodup : ((pre ++ (bp, sf) :: post).map probeOf).Nodup) :
    play_sound_linux env sound_type =
      (pre.map probeOf ++ probeOf (bp, sf) :: playerAttempt env (joinPath bp sf), none) ∧
      (∀ c ∈ post, probeOf c ∉ (play_sound_linux env sound_type).1) ∧
      Event.run ["beep", "-f", "800", "-l", "100"] ∉ (play_sound_linux env sound_type).1 := by
  have hloop := linuxLoop_first_hit env pre post bp sf hplayer hpre hhit
  have e : play_sound_linux env sound_type =
      (pre.map probeOf ++ probeOf (bp, sf) :: playerAttempt env (joinPath bp sf), none) := by
    simp only [play_sound_linux]
    rw [hsplit, hloop]
    rfl
  rw [List.map_append, List.map_cons] at hnodup
  rcases List.nodup_append.mp hnodup with ⟨-, hn2, hdisj⟩
  refine ⟨e, ?_, ?_⟩
  · intro c hc hmem
    rw [e] at hmem
    have hcpost : probeOf c ∈ post.map probeOf := List.mem_map_of_mem probeOf hc
    rcases List.mem_append.mp hmem with hin | hin
    · exact hdisj hin (List.mem_cons_of_mem _ hcpost)
    · rcases List.mem_cons.mp hin with heq | hin2
      · rw [heq] at hcpost
        exact (List.nodup_cons.mp hn2).1 hcpost
      · exact probe_not_mem_playerAttempt env _ _ hin2
  · intro hmem
    rw [e] at hmem
    rcases List.mem_append.mp hmem with hin | hin
    · rcases List.mem_map.mp hin with ⟨c, -, hc⟩
      simp [probeOf] at hc
    · rcases List.mem_cons.mp hin with heq | hin2
      · simp [probeOf] at heq
      · exact beep_not_mem_playerAttempt env _ hin2

/-- CLAIM C2 (amended) witness: in `paplayEnv` the first `success`
candidate exists, `paplay` is invokable, and the strategy returns right
after the probe and the player attempt on that file. -/
theorem claim2_witness :
    play_sound_linux paplayEnv "success" =
      (([] : List (String × String)).map probeOf ++
        probeOf ("/usr/share/sounds/freedesktop/stereo/", "complete.oga") ::
          playerAttempt paplayEnv
            (joinPath "/usr/share/sounds/freedesktop/stereo/" "complete.oga"), none) :=
  (claim2_linux_returns_at_first_hit paplayEnv "success" []
    [("/usr/share/sounds/freedesktop/stereo/", "message.oga"),
     ("/usr/share/sounds/freedesktop/stereo/", "glass.oga"),
     ("/usr/share/sounds/ubuntu/stereo/", "complete.oga"),
     ("/usr/share/sounds/ubuntu/stereo/", "message.oga"),
     ("/usr/share/sounds/ubuntu/stereo/", "glass.oga"),
     ("/usr/share/sounds/gnome/default/alerts/", "complete.oga"),
     ("/usr/share/sounds/gnome/default/alerts/", "message.oga"),
     ("/usr/share/sounds/gnome/default/alerts/", "glass.oga")]
    "/usr/share/sounds/freedesktop/stereo/" "complete.oga"
    (by decide) (fun c hc => absurd hc (List.not_mem_nil c))
    (by decide) (Or.inl (by decide)) (by decide)).1

end PlaySound
